import Mathlib

/-!
Verification of the authentication boundary of the Flask application in
src/server.py: an OpenID Connect Authorization Code flow with a server-side
session holding the authenticated principal, a pending-redirect intent, and
the transient flow state.  Route handlers `callback`, `login`, `logout` and
`protected` are embedded as pure functions from a session value (plus the
request data and an abstraction of the provider) to a response and a new
session value.
-/

namespace AuthServer

/-- Claims dictionary carried under the `userinfo` key of a token, as read by
`token.get("userinfo", {})` followed by `.get("sub")` / `.get("email")`
(src/server.py lines 77-79).  Absent claims are `none`. -/
structure UserInfo where
  sub : Option String
  email : Option String
  deriving Repr, DecidableEq

/-- Default empty claims dictionary, the `{}` in `token.get("userinfo", {})`. -/
def UserInfo.empty : UserInfo := { sub := none, email := none }

/-- Token set returned by the token exchange.  The handlers only ever read the
`userinfo` entry; the rest of the dictionary is opaque and rides along inside
the value stored at `session["user"]`. -/
structure Token where
  userinfo : Option UserInfo
  deriving Repr, DecidableEq

/-- Flask session for one browser, restricted to the keys the program uses:
`user` (the stored token set; absent while anonymous), `redirect_after_login`
(the pending-redirect path), and the per-state flow entries that the OAuth
library keeps in the session between `/login` and `/callback` (one key per
outstanding `state` value).  Since the session is a string-keyed dict, the
list of outstanding states of a reachable session has no duplicates. -/
structure SessionState where
  user : Option Token
  redirect_after_login : Option String
  stateKeys : List String
  deriving Repr, DecidableEq

/-- Session after `session.clear()`: every key removed. -/
def emptySession : SessionState :=
  { user := none, redirect_after_login := none, stateKeys := [] }

/-- HTTP response of a handler: a 302 redirect to a location, an error body
with a status code, or a rendered template (status 200). -/
inductive Response where
  | redirect (location : String)
  | error (body : String) (status : Nat)
  | page (template : String)
  deriving Repr, DecidableEq

/-- Modelled from the spec: the OAuth client's `exchangeCode` operation
(spec 4.2), realised by the library call `oauth.auth0.authorize_access_token()`
on src/server.py line 74, whose code is not part of this repository.  Per the
spec, the received `state` is looked up among the flow states stored in the
session; on a mismatch the call fails with `StateMismatchError` before any
network call is made, and on a match the stored state is deleted on
consumption (single-use, spec 4.4) and only then is the code exchanged at the
provider's token endpoint.  The token endpoint itself is abstracted by the
`exchange` argument: `some tok` means the exchange and ID-token validation
succeed with token set `tok`, `none` means they fail for any reason.  The
result carries the outcome, the updated session, and a flag recording whether
the token endpoint was contacted. -/
def authorize_access_token (sess : SessionState) (receivedState : String)
    (exchange : Option Token) : Option Token × SessionState × Bool :=
  if receivedState ∈ sess.stateKeys then
    (exchange, { sess with stateKeys := sess.stateKeys.erase receivedState }, true)
  else
    (none, sess, false)

/-- User id written to the login audit log: `user_info.get("sub", "unknown")`
applied to `token.get("userinfo", {})` (src/server.py lines 77-78). -/
def callbackUserId (token : Token) : String :=
  ((token.userinfo.getD UserInfo.empty).sub).getD "unknown"

/-- Subject carried by a token set: the `sub` claim of its `userinfo`. -/
def tokenSub (t : Token) : Option String :=
  (t.userinfo.getD UserInfo.empty).sub

/-- Subject of the stored principal, when a principal is stored: the `sub`
claim of the token set held at `session["user"]`. -/
def principalSubject (s : SessionState) : Option (Option String) :=
  s.user.map tokenSub

/-- Embedding of the `callback` handler (src/server.py lines 71-88).  On a
successful exchange the raw token is stored at `session["user"]`, the login is
audit-logged, `redirect_after_login` is popped (defaulting to "/") and a 302
to it is returned; any exception from the exchange is caught and answered with
the generic 500 body, leaving the rest of the session untouched. -/
def callback (sess : SessionState) (receivedState : String)
    (exchange : Option Token) : Response × SessionState × Bool :=
  match authorize_access_token sess receivedState exchange with
  | (some token, s1, called) =>
    let s2 : SessionState := { s1 with user := some token }
    let redirect_to := s2.redirect_after_login.getD "/"
    let s3 : SessionState := { s2 with redirect_after_login := none }
    (Response.redirect redirect_to, s3, called)
  | (none, s1, called) =>
    (Response.error "An error occurred during login callback." 500, s1, called)

/-- Embedding of the `protected` handler (src/server.py lines 127-141).  With
no stored user, the requested path is written to `redirect_after_login`
(overwriting any prior value) and a 302 to `/login` is returned; otherwise the
protected template is rendered. -/
def protected_route (sess : SessionState) (requestPath : String) :
    Response × SessionState :=
  match sess.user with
  | none =>
    (Response.redirect "/login",
     { sess with redirect_after_login := some requestPath })
  | some _ => (Response.page "protected.html", sess)

/-- Embedding of the `login` handler (src/server.py lines 91-100) together
with the library call `oauth.auth0.authorize_redirect` it delegates to.
Modelled from the spec: `authorize_redirect` (the spec's
`buildAuthorizationURL`, 4.2) generates a fresh random `state`, persists it
into the session, and returns a 302 to the provider's authorization endpoint;
the fresh state and the authorization URL are parameters of the model.  The
session being a dict, storing an already-present state key leaves the key set
unchanged. -/
def login (sess : SessionState) (freshState : String) (authorizeURL : String) :
    Response × SessionState :=
  (Response.redirect authorizeURL,
   { sess with stateKeys :=
      if freshState ∈ sess.stateKeys then sess.stateKeys
      else freshState :: sess.stateKeys })

/-- Hexadecimal digit (uppercase), used by percent-encoding. -/
def hexDigit (n : Nat) : Char :=
  if n < 10 then Char.ofNat (48 + n) else Char.ofNat (55 + n)

/-- UTF-8 byte sequence of a Unicode code point. -/
def utf8Bytes (n : Nat) : List Nat :=
  if n < 128 then [n]
  else if n < 2048 then [192 + n / 64, 128 + n % 64]
  else if n < 65536 then [224 + n / 4096, 128 + (n / 64) % 64, 128 + n % 64]
  else [240 + n / 262144, 128 + (n / 4096) % 64, 128 + (n / 64) % 64, 128 + n % 64]

/-- Percent-encoding of one byte. -/
def percentByte (b : Nat) : String :=
  String.mk ['%', hexDigit (b / 16), hexDigit (b % 16)]

/-- Embedding of Python's `urllib.parse.quote_plus`: spaces become `+`, ASCII
letters, digits and `_.-~` pass through, every other character is
percent-encoded byte by byte in UTF-8. -/
def quote_plus (s : String) : String :=
  String.join (s.toList.map fun c =>
    if c = ' ' then "+"
    else if c.isAlphanum ∨ c = '_' ∨ c = '.' ∨ c = '-' ∨ c = '~' then
      String.singleton c
    else String.join ((utf8Bytes c.toNat).map percentByte))

/-- Embedding of `urllib.parse.urlencode(..., quote_via=quote_plus)` on an
ordered list of key-value pairs. -/
def urlencode (params : List (String × String)) : String :=
  String.intercalate "&" (params.map fun p => quote_plus p.1 ++ "=" ++ quote_plus p.2)

/-- Embedding of the `logout` handler (src/server.py lines 103-124).
`session.clear()` runs unconditionally before the guarded block, so the
session is empty on both outcomes.  `auth0_domain` is `env.get("AUTH0_DOMAIN")`
(`none` when the variable is unset, in which case the string concatenation on
line 109 raises and the handler answers 500); `client_id` and `returnTo` are
the configured client id and the external home URL computed by `url_for`. -/
def logout (sess : SessionState) (auth0_domain : Option String)
    (client_id : String) (returnTo : String) : Response × SessionState :=
  match auth0_domain with
  | some d =>
    (Response.redirect ("https://" ++ d ++ "/v2/logout?" ++
        urlencode [("returnTo", returnTo), ("client_id", client_id)]),
     emptySession)
  | none => (Response.error "An error occurred during logout." 500, emptySession)

/-- Behaviour of `callback` when the received state is not stored: the generic
500 error, session untouched, token endpoint not contacted. -/
theorem callback_not_mem (sess : SessionState) (st : String) (ex : Option Token)
    (h : st ∉ sess.stateKeys) :
    callback sess st ex =
      (Response.error "An error occurred during login callback." 500, sess, false) := by
  simp [callback, authorize_access_token, h]

/-- Behaviour of `callback` when the received state is stored and the exchange
succeeds: principal stored, pending redirect popped, state erased. -/
theorem callback_mem_some (sess : SessionState) (st : String) (tok : Token)
    (h : st ∈ sess.stateKeys) :
    callback sess st (some tok) =
      (Response.redirect (sess.redirect_after_login.getD "/"),
       { user := some tok, redirect_after_login := none,
         stateKeys := sess.stateKeys.erase st }, true) := by
  simp [callback, authorize_access_token, h]

/-- Behaviour of `callback` when the received state is stored but the exchange
fails: generic 500 error, state consumed, rest of the session untouched. -/
theorem callback_mem_none (sess : SessionState) (st : String)
    (h : st ∈ sess.stateKeys) :
    callback sess st none =
      (Response.error "An error occurred during login callback." 500,
       { sess with stateKeys := sess.stateKeys.erase st }, true) := by
  simp [callback, authorize_access_token, h]

/-- C1: for every callback that completes the flow successfully, the session's
stored user record is exactly the token set returned by the exchange, so the
subject of the stored principal equals the `sub` claim of that token. -/
theorem C1_callback_stores_exchanged_subject (sess : SessionState) (st : String)
    (tok : Token) (h : st ∈ sess.stateKeys) :
    (callback sess st (some tok)).2.1.user = some tok ∧
    principalSubject (callback sess st (some tok)).2.1 = some (tokenSub tok) := by
  rw [callback_mem_some sess st tok h]
  simp [principalSubject]

/-- C1 witness: concrete successful flow with subject "user123". -/
theorem C1_witness :
    "S1" ∈ (SessionState.mk none none ["S1"]).stateKeys ∧
    ((callback (SessionState.mk none none ["S1"]) "S1"
        (some (Token.mk (some (UserInfo.mk (some "user123") (some "u@example.com")))))).2.1.user
      = some (Token.mk (some (UserInfo.mk (some "user123") (some "u@example.com")))) ∧
     principalSubject (callback (SessionState.mk none none ["S1"]) "S1"
        (some (Token.mk (some (UserInfo.mk (some "user123") (some "u@example.com")))))).2.1
      = some (tokenSub (Token.mk (some (UserInfo.mk (some "user123") (some "u@example.com")))))) :=
  ⟨by simp, C1_callback_stores_exchanged_subject _ _ _ (by simp)⟩

/-- C2 counterexample: with the stored state matching, an exchange whose token
carries no `sub` claim still completes the login: the callback answers the
success redirect and stores the token as the principal (whose subject is
absent), and the audit log gets the sentinel user id "unknown" — the callback
does not fail as the claim states. -/
theorem C2_counterexample :
    (callback (SessionState.mk none none ["S1"]) "S1"
        (some (Token.mk (some (UserInfo.mk none (some "u@example.com")))))).1
      = Response.redirect "/" ∧
    (callback (SessionState.mk none none ["S1"]) "S1"
        (some (Token.mk (some (UserInfo.mk none (some "u@example.com")))))).2.1.user
      = some (Token.mk (some (UserInfo.mk none (some "u@example.com")))) ∧
    principalSubject (callback (SessionState.mk none none ["S1"]) "S1"
        (some (Token.mk (some (UserInfo.mk none (some "u@example.com")))))).2.1
      = some none ∧
    callbackUserId (Token.mk (some (UserInfo.mk none (some "u@example.com"))))
      = "unknown" := by
  refine ⟨?_, ?_, ?_, ?_⟩ <;> decide

/-- C2 amended: when the provider's token set lacks a `sub` claim the callback
does not fail; it stores the token unchanged as the session principal — so a
stored principal can have an absent subject — and logs the sentinel user id
"unknown". -/
theorem C2_missing_sub_still_logged_in (sess : SessionState) (st : String)
    (tok : Token) (hst : st ∈ sess.stateKeys) (hsub : tokenSub tok = none) :
    (callback sess st (some tok)).1
      = Response.redirect (sess.redirect_after_login.getD "/") ∧
    (callback sess st (some tok)).2.1.user = some tok ∧
    callbackUserId tok = "unknown" := by
  rw [callback_mem_some sess st tok hst]
  have h2 : (tok.userinfo.getD UserInfo.empty).sub = none := hsub
  refine ⟨rfl, rfl, ?_⟩
  simp [callbackUserId, h2]

/-- C2 amended witness: concrete token lacking `sub`. -/
theorem C2_missing_sub_witness :
    ("S1" ∈ (SessionState.mk none none ["S1"]).stateKeys ∧
     tokenSub (Token.mk (some (UserInfo.mk none (some "u@example.com")))) = none) ∧
    callbackUserId (Token.mk (some (UserInfo.mk none (some "u@example.com"))))
      = "unknown" :=
  ⟨⟨by simp, rfl⟩,
   (C2_missing_sub_still_logged_in (SessionState.mk none none ["S1"]) "S1"
      (Token.mk (some (UserInfo.mk none (some "u@example.com"))))
      (by simp) rfl).2.2⟩

/-- C3: a callback whose received `state` is not among the session's stored
flow states is rejected with the generic 500 error, and the token endpoint is
never contacted during that callback. -/
theorem C3_state_mismatch_rejected_before_network (sess : SessionState)
    (st : String) (ex : Option Token) (h : st ∉ sess.stateKeys) :
    (callback sess st ex).1
      = Response.error "An error occurred during login callback." 500 ∧
    (callback sess st ex).2.2 = false := by
  rw [callback_not_mem sess st ex h]
  exact ⟨rfl, rfl⟩

/-- C3 witness: the spec's scenario, received state "WRONG" while "S1" is
stored, with a provider that would answer successfully. -/
theorem C3_witness :
    "WRONG" ∉ (SessionState.mk none none ["S1"]).stateKeys ∧
    ((callback (SessionState.mk none none ["S1"]) "WRONG"
        (some (Token.mk (some (UserInfo.mk (some "user123") none))))).1
      = Response.error "An error occurred during login callback." 500 ∧
     (callback (SessionState.mk none none ["S1"]) "WRONG"
        (some (Token.mk (some (UserInfo.mk (some "user123") none))))).2.2 = false) :=
  ⟨by decide, C3_state_mismatch_rejected_before_network _ _ _ (by decide)⟩

/-- C4: after a callback succeeds with a given state (deleting the stored
state on consumption), a later callback presenting the same state fails with
the generic 500 error and without contacting the token endpoint, whatever the
provider would answer. -/
theorem C4_consumed_state_replay_fails (sess : SessionState) (st : String)
    (tok : Token) (ex2 : Option Token) (hnd : sess.stateKeys.Nodup)
    (h : st ∈ sess.stateKeys) :
    (callback sess st (some tok)).1
      = Response.redirect (sess.redirect_after_login.getD "/") ∧
    (callback (callback sess st (some tok)).2.1 st ex2).1
      = Response.error "An error occurred during login callback." 500 ∧
    (callback (callback sess st (some tok)).2.1 st ex2).2.2 = false := by
  rw [callback_mem_some sess st tok h]
  have h2 : st ∉ sess.stateKeys.erase st := hnd.not_mem_erase
  rw [callback_not_mem _ st ex2 h2]
  exact ⟨rfl, rfl, rfl⟩

/-- C4 witness: state "S1" consumed by a first successful callback, then
replayed. -/
theorem C4_witness :
    ((SessionState.mk none none ["S1"]).stateKeys.Nodup ∧
     "S1" ∈ (SessionState.mk none none ["S1"]).stateKeys) ∧
    (callback (callback (SessionState.mk none none ["S1"]) "S1"
        (some (Token.mk (some (UserInfo.mk (some "user123") none))))).2.1 "S1"
        (some (Token.mk (some (UserInfo.mk (some "user123") none))))).1
      = Response.error "An error occurred during login callback." 500 :=
  ⟨⟨by decide, by decide⟩,
   (C4_consumed_state_replay_fails (SessionState.mk none none ["S1"]) "S1"
      (Token.mk (some (UserInfo.mk (some "user123") none)))
      (some (Token.mk (some (UserInfo.mk (some "user123") none))))
      (by decide) (by decide)).2.1⟩

/-- C5: a request for a protected path while no principal is stored answers a
302 to /login and writes the requested path over any prior pending redirect;
a login completed immediately afterwards redirects to exactly that path, not
to home. -/
theorem C5_anonymous_protected_capture (sess : SessionState)
    (path st authURL : String) (tok : Token) (h : sess.user = none) :
    (protected_route sess path).1 = Response.redirect "/login" ∧
    (protected_route sess path).2.redirect_after_login = some path ∧
    (callback (login (protected_route sess path).2 st authURL).2 st (some tok)).1
      = Response.redirect path := by
  have hmem : ∀ s2 : SessionState, st ∈ (login s2 st authURL).2.stateKeys := by
    intro s2
    by_cases hc : st ∈ s2.stateKeys <;> simp [login, hc]
  refine ⟨by simp [protected_route, h], by simp [protected_route, h], ?_⟩
  rw [callback_mem_some _ st tok (hmem _)]
  simp [login, protected_route, h]

/-- C5 witness: anonymous session with a stale pending redirect "/old",
request for "/protected", then a completed login. -/
theorem C5_witness :
    (SessionState.mk none (some "/old") []).user = none ∧
    ((protected_route (SessionState.mk none (some "/old") []) "/protected").1
        = Response.redirect "/login" ∧
     (protected_route (SessionState.mk none (some "/old") []) "/protected").2.redirect_after_login
        = some "/protected" ∧
     (callback (login (protected_route (SessionState.mk none (some "/old") []) "/protected").2
          "S1" "https://issuer.example/authorize").2 "S1"
        (some (Token.mk (some (UserInfo.mk (some "user123") none))))).1
        = Response.redirect "/protected") :=
  ⟨rfl, C5_anonymous_protected_capture _ _ _ _ _ rfl⟩

/-- C6: whenever the token exchange fails, the callback answers exactly the
fixed generic 500 body — no provider detail can occur in it — and the stored
principal is left exactly as it was before, in particular unset if it was
unset. -/
theorem C6_exchange_failure_generic_500 (sess : SessionState) (st : String) :
    (callback sess st none).1
      = Response.error "An error occurred during login callback." 500 ∧
    (callback sess st none).2.1.user = sess.user := by
  by_cases h : st ∈ sess.stateKeys
  · rw [callback_mem_none sess st h]; exact ⟨rfl, rfl⟩
  · rw [callback_not_mem sess st none h]; exact ⟨rfl, rfl⟩

/-- C7: a successful callback answers a 302 to the stored pending redirect, or
to "/" when none is stored, and the pending redirect key is removed from the
session as it is read. -/
theorem C7_success_redirect_consumes_pending (sess : SessionState)
    (st : String) (tok : Token) (h : st ∈ sess.stateKeys) :
    (callback sess st (some tok)).1
      = Response.redirect (sess.redirect_after_login.getD "/") ∧
    (callback sess st (some tok)).2.1.redirect_after_login = none := by
  rw [callback_mem_some sess st tok h]
  exact ⟨rfl, rfl⟩

/-- C7 witness: pending redirect "/protected" consumed by a successful
callback. -/
theorem C7_witness :
    "S1" ∈ (SessionState.mk none (some "/protected") ["S1"]).stateKeys ∧
    ((callback (SessionState.mk none (some "/protected") ["S1"]) "S1"
        (some (Token.mk (some (UserInfo.mk (some "user123") none))))).1
      = Response.redirect
          ((SessionState.mk none (some "/protected") ["S1"]).redirect_after_login.getD "/") ∧
     (callback (SessionState.mk none (some "/protected") ["S1"]) "S1"
        (some (Token.mk (some (UserInfo.mk (some "user123") none))))).2.1.redirect_after_login
      = none) :=
  ⟨by simp, C7_success_redirect_consumes_pending _ _ _ (by simp)⟩

/-- C8: logout clears the whole local session and, when the issuer domain is
configured, answers a 302 to the provider logout endpoint carrying the
returnTo and client_id query parameters; the cleared session holds no
principal, so a subsequent protected request redirects to /login. -/
theorem C8_logout_clears_and_redirects (sess : SessionState)
    (d client_id returnTo p : String) :
    (logout sess (some d) client_id returnTo).2 = emptySession ∧
    (logout sess (some d) client_id returnTo).1
      = Response.redirect ("https://" ++ d ++ "/v2/logout?" ++
          urlencode [("returnTo", returnTo), ("client_id", client_id)]) ∧
    (protected_route (logout sess (some d) client_id returnTo).2 p).1
      = Response.redirect "/login" :=
  ⟨rfl, rfl, rfl⟩

/-- C9: when the issuer domain is unset the logout handler answers the generic
500 error, but the local session was already cleared unconditionally, so no
principal remains and a subsequent protected request redirects to /login. -/
theorem C9_logout_failure_still_clears (sess : SessionState)
    (client_id returnTo p : String) :
    (logout sess none client_id returnTo).1
      = Response.error "An error occurred during logout." 500 ∧
    (logout sess none client_id returnTo).2 = emptySession ∧
    (logout sess none client_id returnTo).2.user = none ∧
    (protected_route (logout sess none client_id returnTo).2 p).1
      = Response.redirect "/login" :=
  ⟨rfl, rfl, rfl, rfl⟩

/-- C10: a failed callback leaves the pending redirect untouched — it is
popped only on the success path — so a later successful login still redirects
to the originally requested path. -/
theorem C10_failed_callback_preserves_pending (sess : SessionState)
    (st st2 authURL p : String) (tok : Token)
    (h : sess.redirect_after_login = some p) :
    (callback sess st none).2.1.redirect_after_login = some p ∧
    (callback (login (callback sess st none).2.1 st2 authURL).2 st2 (some tok)).1
      = Response.redirect p := by
  have hpres : (callback sess st none).2.1.redirect_after_login
      = sess.redirect_after_login := by
    by_cases hc : st ∈ sess.stateKeys
    · rw [callback_mem_none sess st hc]
    · rw [callback_not_mem sess st none hc]
  have hmem : st2 ∈ (login (callback sess st none).2.1 st2 authURL).2.stateKeys := by
    by_cases hc : st2 ∈ (callback sess st none).2.1.stateKeys <;> simp [login, hc]
  refine ⟨hpres.trans h, ?_⟩
  rw [callback_mem_some _ st2 tok hmem]
  simp [login, hpres, h]

/-- C10 witness: pending redirect "/protected" survives a failed callback and
is honoured by the next successful login. -/
theorem C10_witness :
    (SessionState.mk none (some "/protected") ["S1"]).redirect_after_login
      = some "/protected" ∧
    (callback (login (callback (SessionState.mk none (some "/protected") ["S1"]) "S1"
          none).2.1 "S2" "https://issuer.example/authorize").2 "S2"
        (some (Token.mk (some (UserInfo.mk (some "user123") none))))).1
      = Response.redirect "/protected" :=
  ⟨rfl,
   (C10_failed_callback_preserves_pending (SessionState.mk none (some "/protected") ["S1"])
      "S1" "S2" "https://issuer.example/authorize" "/protected"
      (Token.mk (some (UserInfo.mk (some "user123") none))) rfl).2⟩

end AuthServer
